import Mathlib

/-!
Shallow embedding of the IMDSv2 client in
`aws/rust-runtime/aws-config/src/imds/client.rs`.

Conventions:
* HTTP status codes are `Nat`; HTTP bodies are byte lists (`List Nat`).
* Second counts and status codes fit comfortably in the source's machine
  integers, so `Nat` models them exactly (no overflow is reachable).
* Components the source delegates to collaborators outside `client.rs`
  (the generic retry loop of the smithy client, the token middleware in
  `imds/client/token.rs`, tokio's `OnceCell`) are modelled from the spec
  where their doc comments say so.
-/

/-- `aws_smithy_types::retry::ErrorKind` (plain enum declared in
`rust-runtime/aws-smithy-types`). -/
inductive ErrorKind where
  | TransientError
  | ThrottlingError
  | ServerError
  | ClientError
deriving Repr, DecidableEq

/-- `aws_smithy_types::retry::RetryKind`; the `Explicit` variant carries a
delay (modelled in milliseconds). -/
inductive RetryKind where
  | Error (kind : ErrorKind)
  | Explicit (millis : Nat)
  | UnretryableFailure
  | Unnecessary
deriving Repr, DecidableEq

/-- `http::StatusCode::is_server_error`: status in `500..=599`. -/
def statusIsServerError (status : Nat) : Bool :=
  500 ≤ status && status ≤ 599

/-- `http::StatusCode::is_success`: status in `200..=299`. -/
def statusIsSuccess (status : Nat) : Bool :=
  200 ≤ status && status ≤ 299

/-- An HTTP response as the classifier and response handlers see it:
a status code and a raw byte body. -/
structure RawResponse where
  status : Nat
  body : List Nat
deriving Repr, DecidableEq

/-- `TokenError` (client.rs lines 663-688). -/
inductive TokenError where
  | InvalidToken
  | NoTtl
  | InvalidTtl
  | InvalidParameters
  | Forbidden
deriving Repr, DecidableEq

/-- `InnerImdsError` (client.rs lines 340-343). -/
inductive InnerImdsError where
  | BadStatus
  | InvalidUtf8
deriving Repr, DecidableEq

/-- `ImdsError` (client.rs lines 254-280).

* `FailedToLoadToken` carries `SdkError<TokenError>` in the source; the
  embedding keeps the terminal `TokenError`.
* `ErrorResponse` carries `raw.into_parts().0`, i.e. only the head of the
  response (status and headers) — the body is dropped, so the embedding
  keeps the status.
* `IoError` and the catch-all `Unexpected` carry boxed `dyn Error`
  payloads; `Unexpected` keeps the display string, `IoError` drops it. -/
inductive ImdsError where
  | FailedToLoadToken (err : TokenError)
  | InvalidPath
  | ErrorResponse (status : Nat)
  | IoError
  | Unexpected (msg : String)
deriving Repr, DecidableEq

/-- `ImdsResponseRetryClassifier::classify` (client.rs lines 713-722):
server errors (500-599) and 401 are retryable; everything else is an
unretryable failure. -/
def ImdsResponseRetryClassifier.classify (response : RawResponse) : RetryKind :=
  let status := response.status
  if statusIsServerError status then RetryKind.Error ErrorKind.ServerError
  else if status = 401 then RetryKind.Error ErrorKind.ServerError
  else RetryKind.UnretryableFailure

/-- The outcome the retry classifier inspects:
`Result<&SdkSuccess<T>, &SdkError<E>>`. `constructionFailure` carries the
result of `err.downcast::<ImdsError>()`: `.ok` when the boxed construction
error was an `ImdsError`, `.error msg` (the foreign error's display)
otherwise. -/
inductive SdkOutcome where
  | success
  | constructionFailure (inner : Except String ImdsError)
  | timeoutError
  | dispatchFailure
  | responseError (raw : RawResponse)
  | serviceError (err : InnerImdsError) (raw : RawResponse)

/-- `ClassifyRetry for ImdsResponseRetryClassifier` (client.rs lines
734-744): `Ok(_)` is `Unnecessary`; `ResponseError` and `ServiceError`
defer to `classify` on the raw response; every other error (construction
failure, timeout, dispatch failure) hits the catch-all arm and is an
unretryable failure. -/
def classifyRetry : SdkOutcome → RetryKind
  | SdkOutcome.success => RetryKind.Unnecessary
  | SdkOutcome.responseError raw => ImdsResponseRetryClassifier.classify raw
  | SdkOutcome.serviceError _ raw => ImdsResponseRetryClassifier.classify raw
  | _ => RetryKind.UnretryableFailure

/-- Continuation byte of a UTF-8 sequence: `0x80..=0xBF`. -/
def isUtf8Cont (b : Nat) : Bool :=
  0x80 ≤ b && b ≤ 0xBF

/-- UTF-8 validity of a byte sequence, as checked by
`std::str::from_utf8` (RFC 3629: no overlong forms, no surrogates, max
`U+10FFFF`). -/
def validUtf8 : List Nat → Bool
  | [] => true
  | b :: rest =>
    if b ≤ 0x7F then validUtf8 rest
    else if 0xC2 ≤ b && b ≤ 0xDF then
      match rest with
      | c1 :: r => isUtf8Cont c1 && validUtf8 r
      | [] => false
    else if b = 0xE0 then
      match rest with
      | c1 :: c2 :: r => (0xA0 ≤ c1 && c1 ≤ 0xBF) && isUtf8Cont c2 && validUtf8 r
      | _ => false
    else if (0xE1 ≤ b && b ≤ 0xEC) || (0xEE ≤ b && b ≤ 0xEF) then
      match rest with
      | c1 :: c2 :: r => isUtf8Cont c1 && isUtf8Cont c2 && validUtf8 r
      | _ => false
    else if b = 0xED then
      match rest with
      | c1 :: c2 :: r => (0x80 ≤ c1 && c1 ≤ 0x9F) && isUtf8Cont c2 && validUtf8 r
      | _ => false
    else if b = 0xF0 then
      match rest with
      | c1 :: c2 :: c3 :: r =>
        (0x90 ≤ c1 && c1 ≤ 0xBF) && isUtf8Cont c2 && isUtf8Cont c3 && validUtf8 r
      | _ => false
    else if 0xF1 ≤ b && b ≤ 0xF3 then
      match rest with
      | c1 :: c2 :: c3 :: r =>
        isUtf8Cont c1 && isUtf8Cont c2 && isUtf8Cont c3 && validUtf8 r
      | _ => false
    else if b = 0xF4 then
      match rest with
      | c1 :: c2 :: c3 :: r =>
        (0x80 ≤ c1 && c1 ≤ 0x8F) && isUtf8Cont c2 && isUtf8Cont c3 && validUtf8 r
      | _ => false
    else false

/-- `ParseStrictResponse for ImdsGetResponseHandler` (client.rs lines
356-368): a successful status yields the body when it is valid UTF-8
(`InvalidUtf8` otherwise); a failing status yields `BadStatus`. The body
is kept as bytes; the source converts the validated bytes to a `String`. -/
def ImdsGetResponseHandler.parse (response : RawResponse) :
    Except InnerImdsError (List Nat) :=
  if statusIsSuccess response.status then
    if validUtf8 response.body then Except.ok response.body
    else Except.error InnerImdsError.InvalidUtf8
  else Except.error InnerImdsError.BadStatus

/-- The error mapping in `Client::get` (client.rs lines 208-226):
construction failures are downcast to `ImdsError` and returned unchanged
when the downcast succeeds (otherwise wrapped as `Unexpected`); timeout,
dispatch and response errors become `IoError`; a service error with
`BadStatus` becomes `ErrorResponse` carrying the raw response head; a
service error with `InvalidUtf8` becomes `Unexpected`. -/
def Client.mapGetError : SdkOutcome → ImdsError
  | SdkOutcome.constructionFailure (Except.ok imdsErr) => imdsErr
  | SdkOutcome.constructionFailure (Except.error other) => ImdsError.Unexpected other
  | SdkOutcome.timeoutError => ImdsError.IoError
  | SdkOutcome.dispatchFailure => ImdsError.IoError
  | SdkOutcome.responseError _ => ImdsError.IoError
  | SdkOutcome.serviceError InnerImdsError.BadStatus raw => ImdsError.ErrorResponse raw.status
  | SdkOutcome.serviceError InnerImdsError.InvalidUtf8 _ =>
      ImdsError.Unexpected "IMDS returned invalid UTF-8"
  | SdkOutcome.success => ImdsError.Unexpected "unreachable"

/-- Modelled from the spec: the generic retry-loop collaborator
(`rust-runtime/aws-smithy-client`, not under `src/`), per §6: «given an
operation producer and a classifier, invokes up to `max_attempts` times,
stopping on the first `Unnecessary`/success or `Unretryable`
classification, or after exhausting attempts on persistent
`RetryableServerError`». `fuel + 1` is `max_attempts`; `respAt i` is the
outcome of the i-th attempt; the result is the final outcome together
with the number of attempts performed. -/
def retryLoop {α : Type} (classify : α → RetryKind) (respAt : Nat → α) :
    Nat → Nat → α × Nat
  | 0, i => (respAt i, 1)
  | fuel + 1, i =>
    let r := respAt i
    match classify r with
    | RetryKind.Error _ =>
      let (o, k) := retryLoop classify respAt fuel (i + 1)
      (o, k + 1)
    | _ => (r, 1)

/-- ASCII lowercasing of one character, as in Rust's
`u8::to_ascii_lowercase`. -/
def asciiToLower (c : Char) : Char :=
  if 'A' ≤ c && c ≤ 'Z' then Char.ofNat (c.toNat + 32) else c

/-- ASCII lowercasing of a string (`str::to_ascii_lowercase`). -/
def asciiLowercase (s : String) : String :=
  String.mk (s.data.map asciiToLower)

/-- `str::eq_ignore_ascii_case`. -/
def eqIgnoreAsciiCase (a b : String) : Bool :=
  asciiLowercase a == asciiLowercase b

/-- `EndpointMode` (client.rs lines 377-384). -/
inductive EndpointMode where
  | IpV4
  | IpV6
deriving Repr, DecidableEq

/-- `InvalidEndpointMode` (client.rs line 388): carries the rejected
string. -/
structure InvalidEndpointMode where
  raw : String
deriving Repr, DecidableEq

/-- `FromStr for EndpointMode` (client.rs lines 402-412): ASCII
case-insensitive match against `ipv4` and `ipv6`; anything else is an
`InvalidEndpointMode` error carrying the input. -/
def EndpointMode.fromStr (value : String) : Except InvalidEndpointMode EndpointMode :=
  if eqIgnoreAsciiCase value "ipv4" then Except.ok EndpointMode.IpV4
  else if eqIgnoreAsciiCase value "ipv6" then Except.ok EndpointMode.IpV6
  else Except.error ⟨value⟩

/-- `EndpointMode::endpoint` (client.rs lines 414-422): the fixed
mode-to-address mapping. -/
def EndpointMode.endpoint : EndpointMode → String
  | EndpointMode.IpV4 => "http://169.254.169.254"
  | EndpointMode.IpV6 => "http://[fd00:ec2::254]"

/-- `env::ENDPOINT` (client.rs line 601). -/
def envKeyEndpoint : String := "AWS_EC2_METADATA_SERVICE_ENDPOINT"

/-- `env::ENDPOINT_MODE` (client.rs line 602). -/
def envKeyEndpointMode : String := "AWS_EC2_METADATA_SERVICE_ENDPOINT_MODE"

/-- `profile_keys::ENDPOINT` (client.rs line 606). -/
def profileKeyEndpoint : String := "ec2_metadata_service_endpoint"

/-- `profile_keys::ENDPOINT_MODE` (client.rs line 607). -/
def profileKeyEndpointMode : String := "ec2_metadata_service_endpoint_mode"

/-- The process environment (`aws_types::os_shim_internal::Env`): a map
from variable names to values; `get` is `Ok` exactly when the variable is
set (modelled as `some`). -/
structure Env where
  vars : List (String × String)
deriving Repr, DecidableEq

/-- `Env::get`. -/
def Env.get (e : Env) (key : String) : Option String :=
  (e.vars.find? (fun p => p.1 == key)).map (fun p => p.2)

/-- A loaded AWS profile (`profile::load` result): a map from keys to
values in the selected profile. -/
structure Profile where
  entries : List (String × String)
deriving Repr, DecidableEq

/-- `Profile::get`. -/
def Profile.get (p : Profile) (key : String) : Option String :=
  (p.entries.find? (fun q => q.1 == key)).map (fun q => q.2)

/-- `BuildError` (client.rs lines 438-447). -/
inductive BuildError where
  | InvalidEndpointMode (err : InvalidEndpointMode)
  | InvalidProfile
  | InvalidEndpointUri (raw : String)
deriving Repr, DecidableEq

/-- `EndpointSource` (client.rs lines 612-615). The source's `Env`
variant holds `(Env, Fs)` and loads the profile file inside
`EndpointSource::endpoint`; the embedding carries the outcome of that
profile load (`Except.error` when the profile file is malformed). -/
inductive EndpointSource where
  | Explicit (uri : String)
  | FromEnv (env : Env) (profileLoad : Except Unit Profile)

/-- `EndpointSource::endpoint` (client.rs lines 618-658). `parseUri`
models `http::Uri::try_from` (an external parser): `some` on success.
The `Bool` in the result records whether the non-fatal
«mode override ignored» warning was emitted (the `tracing::warn!` call
in the `Explicit` branch). -/
def EndpointSource.endpoint (parseUri : String → Option String)
    (src : EndpointSource) (modeOverride : Option EndpointMode) :
    Except BuildError (String × Bool) :=
  match src with
  | EndpointSource.Explicit uri => Except.ok (uri, modeOverride.isSome)
  | EndpointSource.FromEnv env profileLoad =>
    match profileLoad with
    | Except.error _ => Except.error BuildError.InvalidProfile
    | Except.ok profile =>
      let uriOverride : Option String :=
        match env.get envKeyEndpoint with
        | some uri => some uri
        | none => profile.get profileKeyEndpoint
      match uriOverride with
      | some uri =>
        match parseUri uri with
        | some u => Except.ok (u, false)
        | none => Except.error (BuildError.InvalidEndpointUri uri)
      | none =>
        let modeResult : Except BuildError EndpointMode :=
          match modeOverride with
          | some mode => Except.ok mode
          | none =>
            match env.get envKeyEndpointMode with
            | some m =>
              match EndpointMode.fromStr m with
              | Except.ok mode => Except.ok mode
              | Except.error e => Except.error (BuildError.InvalidEndpointMode e)
            | none =>
              match profile.get profileKeyEndpointMode with
              | some m =>
                match EndpointMode.fromStr m with
                | Except.ok mode => Except.ok mode
                | Except.error e => Except.error (BuildError.InvalidEndpointMode e)
              | none => Except.ok EndpointMode.IpV4
        match modeResult with
        | Except.ok mode => Except.ok (mode.endpoint, false)
        | Except.error e => Except.error e

/-- `DEFAULT_TOKEN_TTL` (client.rs line 50): six hours, in seconds. -/
def DEFAULT_TOKEN_TTL : Nat := 21600

/-- `DEFAULT_ATTEMPTS` (client.rs line 51). -/
def DEFAULT_ATTEMPTS : Nat := 4

/-- `DEFAULT_CONNECT_TIMEOUT` (client.rs line 52), in seconds. -/
def DEFAULT_CONNECT_TIMEOUT : Nat := 1

/-- `DEFAULT_READ_TIMEOUT` (client.rs line 53), in seconds. -/
def DEFAULT_READ_TIMEOUT : Nat := 1

/-- `Builder` (client.rs lines 426-434); durations are in seconds. The
`config` field (provider plumbing) is not part of any claim and is
omitted. -/
structure Builder where
  max_attempts : Option Nat
  endpoint : Option EndpointSource
  mode_override : Option EndpointMode
  token_ttl : Option Nat
  connect_timeout : Option Nat
  read_timeout : Option Nat

/-- `Builder::build`, line 576: the TTL handed to the token middleware is
`self.token_ttl.unwrap_or(DEFAULT_TOKEN_TTL)`. -/
def Builder.resolvedTokenTtl (b : Builder) : Nat :=
  b.token_ttl.getD DEFAULT_TOKEN_TTL

/-- `Builder::build`, line 571: `self.max_attempts.unwrap_or(DEFAULT_ATTEMPTS)`. -/
def Builder.resolvedMaxAttempts (b : Builder) : Nat :=
  b.max_attempts.getD DEFAULT_ATTEMPTS

/-- `Builder::build`, line 560: `self.connect_timeout.unwrap_or(DEFAULT_CONNECT_TIMEOUT)`. -/
def Builder.resolvedConnectTimeout (b : Builder) : Nat :=
  b.connect_timeout.getD DEFAULT_CONNECT_TIMEOUT

/-- `Builder::build`, line 561: `self.read_timeout.unwrap_or(DEFAULT_READ_TIMEOUT)`. -/
def Builder.resolvedReadTimeout (b : Builder) : Nat :=
  b.read_timeout.getD DEFAULT_READ_TIMEOUT

/-- `Builder::build`, lines 565-568: the endpoint source is the explicit
builder endpoint when present, otherwise the environment/profile source. -/
def Builder.endpointSource (b : Builder) (env : Env)
    (profileLoad : Except Unit Profile) : EndpointSource :=
  b.endpoint.getD (EndpointSource.FromEnv env profileLoad)

/-- `Builder::build`, line 568: resolve the endpoint from the selected
source with the builder's mode override. -/
def Builder.buildEndpoint (parseUri : String → Option String) (b : Builder)
    (env : Env) (profileLoad : Except Unit Profile) :
    Except BuildError (String × Bool) :=
  (b.endpointSource env profileLoad).endpoint parseUri b.mode_override

/-- One decimal digit. -/
def digitVal (c : Char) : Option Nat :=
  if '0' ≤ c && c ≤ '9' then some (c.toNat - 48) else none

/-- Parse a decimal unsigned integer, as Rust's `str::parse::<u64>` does
for plain digit strings (empty or non-digit input fails). -/
def parseDecimal (s : String) : Option Nat :=
  if s.data.isEmpty then none
  else s.data.foldl
    (fun acc c =>
      match acc, digitVal c with
      | some n, some d => some (n * 10 + d)
      | _, _ => none)
    (some 0)

/-- `http::HeaderValue` byte validity: horizontal tab or a visible byte
(32-255 except DEL). Token bodies are later sent back as header values,
so they must satisfy this. -/
def isValidHeaderValue (body : List Nat) : Bool :=
  body.all (fun b => b == 9 || (32 ≤ b && b ≤ 255 && b != 127))

/-- Modelled from the spec: `TOKEN_REFRESH_BUFFER` of the token
middleware (`imds/client/token.rs`, not under `src/`), §4.3 step 2:
«refresh_buffer = 120 seconds, fixed». -/
def TOKEN_REFRESH_BUFFER : Nat := 120

/-- `CachedToken` per the spec data model (§3): an opaque header-safe
value and its expiry instant (seconds). -/
structure CachedToken where
  value : List Nat
  expires_at : Nat
deriving Repr, DecidableEq

/-- Modelled from the spec: token usability (§4.3 step 2 and §3):
«Usable iff present and `now < expires_at − refresh_buffer`»; `Nat`
subtraction truncates at zero, so a token whose whole lifetime is shorter
than the buffer is never usable from the cache. -/
def tokenUsable (t : CachedToken) (now : Nat) : Bool :=
  now < t.expires_at - TOKEN_REFRESH_BUFFER

/-- The wire response to the token `PUT`: status, the
`x-aws-ec2-metadata-token-ttl-seconds` header when present, and the
token body bytes. -/
structure TokenResponse where
  status : Nat
  ttlHeader : Option String
  body : List Nat
deriving Repr, DecidableEq

/-- Modelled from the spec: token-response handling of the token
middleware (`imds/client/token.rs`, not under `src/`), §4.3 steps 3-4 and
the status table on client.rs lines 727-733: 400 is `InvalidParameters`,
403 is `Forbidden`; otherwise the response must carry a TTL header that
parses as an integer (`NoTtl`/`InvalidTtl`) and a body usable as a header
value (`InvalidToken`); on success the token value and the granted TTL
are returned. A TTL of zero is accepted, matching the
`retry_metadata_401` test (client.rs line 1000), which feeds a
zero-TTL token through successfully. -/
def parseTokenResponse (r : TokenResponse) : Except TokenError (List Nat × Nat) :=
  if r.status = 400 then Except.error TokenError.InvalidParameters
  else if r.status = 403 then Except.error TokenError.Forbidden
  else
    match r.ttlHeader with
    | none => Except.error TokenError.NoTtl
    | some s =>
      match parseDecimal s with
      | none => Except.error TokenError.InvalidTtl
      | some ttl =>
        if isValidHeaderValue r.body then Except.ok (r.body, ttl)
        else Except.error TokenError.InvalidToken

/-- Classification of one token-fetch attempt: a parsed token needs no
retry; otherwise the shared `ImdsResponseRetryClassifier` decides from
the raw status (spec §4.3 step 3: the token fetch goes through the retry
loop with the classifier from §4.2). -/
def classifyTokenResponse (r : TokenResponse) : RetryKind :=
  match parseTokenResponse r with
  | Except.ok _ => RetryKind.Unnecessary
  | Except.error _ => ImdsResponseRetryClassifier.classify ⟨r.status, r.body⟩

/-- Classification of one metadata-GET attempt: parsed success needs no
retry; a parse failure defers to the classifier on the raw response —
exactly `classifyRetry` on the corresponding `SdkOutcome`. -/
def classifyMetaResponse (raw : RawResponse) : RetryKind :=
  match ImdsGetResponseHandler.parse raw with
  | Except.ok _ => RetryKind.Unnecessary
  | Except.error e => classifyRetry (SdkOutcome.serviceError e raw)

/-- Result of asking the token cache manager for a token. -/
structure TokenOutcome where
  result : Except TokenError CachedToken
  cache : Option CachedToken
  fetches : Nat
  attempts : Nat
deriving Repr

/-- Modelled from the spec: one token fetch of the token middleware
(`imds/client/token.rs`, not under `src/`), §4.3 step 3: the `PUT` goes
through the retry loop; on success the cache is replaced wholesale with
`{value, expires_at = now + ttl}` (the granted TTL); on failure the cache
is left unchanged and the error is surfaced. `respAt i` is the wire
response to the i-th attempt. -/
def fetchToken (fuel : Nat) (respAt : Nat → TokenResponse) (now : Nat)
    (cache : Option CachedToken) : TokenOutcome :=
  let r := (retryLoop classifyTokenResponse respAt fuel 0).1
  let k := (retryLoop classifyTokenResponse respAt fuel 0).2
  match parseTokenResponse r with
  | Except.ok vt =>
    let t : CachedToken := ⟨vt.1, now + vt.2⟩
    ⟨Except.ok t, some t, 1, k⟩
  | Except.error e => ⟨Except.error e, cache, 1, k⟩

/-- Modelled from the spec: the per-call token decision of the token
middleware (`imds/client/token.rs`, not under `src/`), §4.3 steps 1-2:
read the cache; reuse the token iff it is usable now; otherwise fetch. -/
def getToken (fuel : Nat) (respAt : Nat → TokenResponse) (now : Nat)
    (cache : Option CachedToken) : TokenOutcome :=
  match cache with
  | some t =>
    if tokenUsable t now then ⟨Except.ok t, cache, 0, 0⟩
    else fetchToken fuel respAt now cache
  | none => fetchToken fuel respAt now cache

/-- Outcome of one `Client::get` call against the model. -/
structure GetOutcome where
  result : Except ImdsError (List Nat)
  cache : Option CachedToken
  tokenFetches : Nat
  tokenAttempts : Nat
  metaAttempts : Nat
deriving Repr

/-- One `Client::get` call (client.rs lines 202-248) against wire
responses: obtain a token (spec §4.3; a token failure surfaces as a
construction failure, downcast back to `FailedToLoadToken`, and no
metadata request is issued), then run the metadata GET through the retry
loop and map the final outcome as `Client::get` does. `fuel + 1` is the
configured `max_attempts` for both loops. -/
def clientGet (fuel : Nat) (tokenRespAt : Nat → TokenResponse)
    (metaRespAt : Nat → RawResponse) (now : Nat)
    (cache : Option CachedToken) : GetOutcome :=
  let tok := getToken fuel tokenRespAt now cache
  match tok.result with
  | Except.error e =>
    ⟨Except.error (Client.mapGetError
        (SdkOutcome.constructionFailure (Except.ok (ImdsError.FailedToLoadToken e)))),
      tok.cache, tok.fetches, tok.attempts, 0⟩
  | Except.ok _ =>
    let raw := (retryLoop classifyMetaResponse metaRespAt fuel 0).1
    let k := (retryLoop classifyMetaResponse metaRespAt fuel 0).2
    let result : Except ImdsError (List Nat) :=
      match ImdsGetResponseHandler.parse raw with
      | Except.ok v => Except.ok v
      | Except.error e => Except.error (Client.mapGetError (SdkOutcome.serviceError e raw))
    ⟨result, tok.cache, tok.fetches, tok.attempts, k⟩

/-- `Client::get` including the path check of `make_operation` (client.rs
lines 233-248): a path that does not parse as a URI fails with
`InvalidPath` before any network activity. `pathParses` models the
outcome of the external `http::Uri` parser on the path. -/
def Client.get (pathParses : Bool) (fuel : Nat)
    (tokenRespAt : Nat → TokenResponse) (metaRespAt : Nat → RawResponse)
    (now : Nat) (cache : Option CachedToken) : GetOutcome :=
  if pathParses then clientGet fuel tokenRespAt metaRespAt now cache
  else ⟨Except.error ImdsError.InvalidPath, cache, 0, 0, 0⟩

/-- Sequential `get` calls at the given times, threading the token cache
and summing the token fetches performed. -/
def runGets (fuel : Nat) (tokenRespAt : Nat → TokenResponse)
    (metaRespAt : Nat → RawResponse) :
    List Nat → Option CachedToken → Option CachedToken × Nat
  | [], cache => (cache, 0)
  | t :: ts, cache =>
    let out := clientGet fuel tokenRespAt metaRespAt t cache
    let rest := runGets fuel tokenRespAt metaRespAt ts out.cache
    (rest.1, out.tokenFetches + rest.2)

/-- The state of a `LazyClient`'s one-shot cell: the cached build
outcome, if any, together with how many times the builder has actually
run. -/
structure LazyCell (α : Type) where
  cell : Option α
  buildsRun : Nat
deriving Repr, DecidableEq

/-- Modelled from the spec: `LazyClient::client` (client.rs lines
159-173) over tokio's `OnceCell::get_or_init` (external collaborator),
§4.5: the first call runs `builder.clone().build()` and caches the one
resulting outcome — success or failure — for the lifetime of the object;
every later call returns the cached outcome without running the builder
again. `buildFn i` is the outcome the i-th execution of the builder
would produce (later executions are never run once the cell is full). -/
def LazyClient.call {α : Type} (buildFn : Nat → α) (s : LazyCell α) :
    α × LazyCell α :=
  match s.cell with
  | some out => (out, s)
  | none =>
    let out := buildFn s.buildsRun
    (out, ⟨some out, s.buildsRun + 1⟩)

/-- A fresh `LazyClient` (client.rs lines 549-554): empty cell, builder
never run. -/
def LazyClient.initState {α : Type} : LazyCell α := ⟨none, 0⟩

/-- A sequence of `client()` calls on one `LazyClient`, collecting the
returned outcomes. -/
def LazyClient.runCalls {α : Type} (buildFn : Nat → α) :
    Nat → LazyCell α → List α × LazyCell α
  | 0, s => ([], s)
  | k + 1, s =>
    let (r, s2) := LazyClient.call buildFn s
    let (rs, s3) := LazyClient.runCalls buildFn k s2
    (r :: rs, s3)

theorem retryLoop_stops {α : Type} (classify : α → RetryKind) (respAt : Nat → α)
    (fuel i : Nat) (h : ∀ k, classify (respAt i) ≠ RetryKind.Error k) :
    retryLoop classify respAt fuel i = (respAt i, 1) := by
  cases fuel with
  | zero => rfl
  | succ n =>
    simp only [retryLoop]

theorem LazyClient.runCalls_cached {α : Type} (buildFn : Nat → α) (out : α)
    (n : Nat) : ∀ k, LazyClient.runCalls buildFn k ⟨some out, n⟩ =
      (List.replicate k out, ⟨some out, n⟩) := by
  intro k
  induction k with
  | zero => rfl
  | succ k ih => simp [LazyClient.runCalls, LazyClient.call, ih, List.replicate]

theorem LazyClient.runCalls_fresh {α : Type} (buildFn : Nat → α) (k : Nat) :
    LazyClient.runCalls buildFn (k + 1) LazyClient.initState =
      (List.replicate (k + 1) (buildFn 0), ⟨some (buildFn 0), 1⟩) := by
  simp [LazyClient.runCalls, LazyClient.call, LazyClient.initState,
    LazyClient.runCalls_cached, List.replicate]

theorem classify_eq (raw : RawResponse) :
    ImdsResponseRetryClassifier.classify raw =
      if (500 ≤ raw.status ∧ raw.status ≤ 599) ∨ raw.status = 401
      then RetryKind.Error ErrorKind.ServerError
      else RetryKind.UnretryableFailure := by
  rcases raw with ⟨s, body⟩
  simp only [ImdsResponseRetryClassifier.classify, statusIsServerError,
    Bool.and_eq_true, decide_eq_true_eq]
  split_ifs <;> first | rfl | omega

/-- Claim C3 (counterexample): the claim says every final response with
status ≥ 500 classifies as a retryable server error, but the source
checks `is_server_error()` (500-599 only): status 600 — a value the
`http` crate accepts as a status code — classifies as an unretryable
failure. -/
theorem C3_counterexample :
    ¬ (∀ raw : RawResponse, 500 ≤ raw.status →
        ImdsResponseRetryClassifier.classify raw =
          RetryKind.Error ErrorKind.ServerError) := by
  intro h
  have h600 := h ⟨600, []⟩ (by decide)
  have : ImdsResponseRetryClassifier.classify ⟨600, []⟩ =
      RetryKind.UnretryableFailure := by decide
  rw [this] at h600
  cases h600

/-- Claim C3 (amended): the classifier is a pure function of the outcome:
a success classifies as `Unnecessary`; a final response classifies as a
retryable server error iff its status is in 500-599 or equals 401, and as
an unretryable failure otherwise (including 400, 403, 404, statuses
600-999, and any successful-status response whose body failed to parse). -/
theorem C3_classifier_amended (raw : RawResponse) (e : InnerImdsError) :
    (ImdsResponseRetryClassifier.classify raw = RetryKind.Error ErrorKind.ServerError ↔
      (500 ≤ raw.status ∧ raw.status ≤ 599) ∨ raw.status = 401) ∧
    (ImdsResponseRetryClassifier.classify raw = RetryKind.UnretryableFailure ↔
      ¬ ((500 ≤ raw.status ∧ raw.status ≤ 599) ∨ raw.status = 401)) ∧
    classifyRetry SdkOutcome.success = RetryKind.Unnecessary ∧
    classifyRetry (SdkOutcome.responseError raw) =
      ImdsResponseRetryClassifier.classify raw ∧
    classifyRetry (SdkOutcome.serviceError e raw) =
      ImdsResponseRetryClassifier.classify raw ∧
    (statusIsSuccess raw.status = true →
      classifyRetry (SdkOutcome.serviceError e raw) = RetryKind.UnretryableFailure) := by
  refine ⟨?_, ?_, rfl, rfl, rfl, ?_⟩
  · rw [classify_eq]; split_ifs with h <;> simp [h]
  · rw [classify_eq]; split_ifs with h <;> simp [h]
  · intro hs
    simp only [statusIsSuccess, Bool.and_eq_true, decide_eq_true_eq] at hs
    rw [classifyRetry, classify_eq]
    split_ifs with h
    · omega
    · rfl

/-- Claim C3 (witness). -/
theorem C3_classifier_amended_witness :
    (ImdsResponseRetryClassifier.classify ⟨503, []⟩ = RetryKind.Error ErrorKind.ServerError ↔
      (500 ≤ 503 ∧ 503 ≤ 599) ∨ 503 = 401) ∧
    (ImdsResponseRetryClassifier.classify ⟨503, []⟩ = RetryKind.UnretryableFailure ↔
      ¬ ((500 ≤ 503 ∧ 503 ≤ 599) ∨ 503 = 401)) ∧
    classifyRetry SdkOutcome.success = RetryKind.Unnecessary ∧
    classifyRetry (SdkOutcome.responseError ⟨503, []⟩) =
      ImdsResponseRetryClassifier.classify ⟨503, []⟩ ∧
    classifyRetry (SdkOutcome.serviceError InnerImdsError.InvalidUtf8 ⟨503, []⟩) =
      ImdsResponseRetryClassifier.classify ⟨503, []⟩ ∧
    (statusIsSuccess (RawResponse.status ⟨200, [160]⟩) = true →
      classifyRetry (SdkOutcome.serviceError InnerImdsError.InvalidUtf8 ⟨200, [160]⟩) =
        RetryKind.UnretryableFailure) ∧
    classifyRetry (SdkOutcome.serviceError InnerImdsError.InvalidUtf8 ⟨200, [160]⟩) =
      RetryKind.UnretryableFailure :=
  ⟨(C3_classifier_amended ⟨503, []⟩ InnerImdsError.InvalidUtf8).1,
   (C3_classifier_amended ⟨503, []⟩ InnerImdsError.InvalidUtf8).2.1,
   (C3_classifier_amended ⟨503, []⟩ InnerImdsError.InvalidUtf8).2.2.1,
   (C3_classifier_amended ⟨503, []⟩ InnerImdsError.InvalidUtf8).2.2.2.1,
   (C3_classifier_amended ⟨503, []⟩ InnerImdsError.InvalidUtf8).2.2.2.2.1,
   (C3_classifier_amended ⟨200, [160]⟩ InnerImdsError.InvalidUtf8).2.2.2.2.2,
   (C3_classifier_amended ⟨200, [160]⟩ InnerImdsError.InvalidUtf8).2.2.2.2.2 (by decide)⟩

/-- Claim C6 (counterexample): the claim says transport-level failures
(timeouts, connection failures) are treated as retryable and re-attempted
up to the attempt budget, but the classifier's catch-all arm classifies
both `TimeoutError` and `DispatchFailure` as `UnretryableFailure`, and
the retry loop then performs exactly one attempt even with the default
budget of four (`fuel = 3`). The source's own `one_second_connect_timeout`
test (client.rs lines 1100-1133) asserts a connect-timeout call returns
between one and two seconds — a single one-second attempt. -/
theorem C6_counterexample :
    classifyRetry SdkOutcome.timeoutError = RetryKind.UnretryableFailure ∧
    classifyRetry SdkOutcome.dispatchFailure = RetryKind.UnretryableFailure ∧
    retryLoop classifyRetry (fun _ => SdkOutcome.timeoutError) 3 0 =
      (SdkOutcome.timeoutError, 1) ∧
    retryLoop classifyRetry (fun _ => SdkOutcome.dispatchFailure) 3 0 =
      (SdkOutcome.dispatchFailure, 1) :=
  ⟨rfl, rfl, rfl, rfl⟩

/-- Claim C6 (amended): a transport-level failure (timeout or dispatch
failure) is classified `UnretryableFailure` by the IMDS classifier, so
the retry loop stops after the first such failure — the operation is not
re-attempted — and `Client::get` surfaces it as `IoError`. -/
theorem C6_transport_unretryable (fuel : Nat) (outAt : Nat → SdkOutcome)
    (h : outAt 0 = SdkOutcome.timeoutError ∨ outAt 0 = SdkOutcome.dispatchFailure) :
    classifyRetry (outAt 0) = RetryKind.UnretryableFailure ∧
    retryLoop classifyRetry outAt fuel 0 = (outAt 0, 1) ∧
    Client.mapGetError (outAt 0) = ImdsError.IoError := by
  have hc : classifyRetry (outAt 0) = RetryKind.UnretryableFailure := by
    rcases h with h | h <;> rw [h] <;> rfl
  refine ⟨hc, ?_, ?_⟩
  · exact retryLoop_stops classifyRetry outAt fuel 0
      (fun k hk => by rw [hc] at hk; cases hk)
  · rcases h with h | h <;> rw [h] <;> rfl

/-- Claim C6 (amended, witness). -/
theorem C6_transport_unretryable_witness :
    classifyRetry SdkOutcome.timeoutError = RetryKind.UnretryableFailure ∧
    retryLoop classifyRetry (fun _ => SdkOutcome.timeoutError) 5 0 =
      (SdkOutcome.timeoutError, 1) ∧
    Client.mapGetError SdkOutcome.timeoutError = ImdsError.IoError :=
  C6_transport_unretryable 5 (fun _ => SdkOutcome.timeoutError) (Or.inl rfl)

/-- Claim C9: when no token TTL override is configured, `Builder::build`
hands the token middleware the default TTL of 21,600 seconds (6 hours);
an override is used as given. The spec's own stated defaults — 4 max
attempts and 1-second connect/read timeouts — also hold. -/
theorem C9_default_token_ttl :
    DEFAULT_TOKEN_TTL = 21600 ∧
    Builder.resolvedTokenTtl ⟨none, none, none, none, none, none⟩ = 21600 ∧
    (∀ t : Nat,
      Builder.resolvedTokenTtl ⟨none, none, none, some t, none, none⟩ = t) ∧
    DEFAULT_ATTEMPTS = 4 ∧ DEFAULT_CONNECT_TIMEOUT = 1 ∧ DEFAULT_READ_TIMEOUT = 1 ∧
    Builder.resolvedMaxAttempts ⟨none, none, none, none, none, none⟩ = 4 ∧
    Builder.resolvedConnectTimeout ⟨none, none, none, none, none, none⟩ = 1 ∧
    Builder.resolvedReadTimeout ⟨none, none, none, none, none, none⟩ = 1 :=
  ⟨rfl, rfl, fun _ => rfl, rfl, rfl, rfl, rfl, rfl, rfl⟩

/-- Claim C5: a `LazyClient` computes its build outcome at most once:
starting from a fresh cell, a sequence of `k + 1` calls returns the first
execution's outcome every time and runs the builder exactly once; in
particular a failed build (`BuildError`) is cached and never re-attempted
— even when a later execution of the builder would have succeeded, every
call still returns the first failure. -/
theorem C5_lazy_client_once {α : Type} (buildFn : Nat → α) (k : Nat) :
    LazyClient.runCalls buildFn (k + 1) LazyClient.initState =
      (List.replicate (k + 1) (buildFn 0), ⟨some (buildFn 0), 1⟩) ∧
    (LazyClient.runCalls
        (fun i => if i = 0 then Except.error BuildError.InvalidProfile
                  else Except.ok EndpointMode.IpV4)
        (k + 1) LazyClient.initState).1 =
      List.replicate (k + 1) (Except.error BuildError.InvalidProfile) := by
  refine ⟨LazyClient.runCalls_fresh buildFn k, ?_⟩
  rw [LazyClient.runCalls_fresh]
  simp

/-- Claim C10: a construction failure whose inner error downcasts to
`ImdsError` (such as `FailedToLoadToken`) is returned to the caller
unchanged; any other construction error is wrapped as `Unexpected`; and
a construction failure classifies as an unretryable failure, so the
retry loop performs no further attempt after it. -/
theorem C10_construction_failure (e : ImdsError) (msg : String)
    (x : Except String ImdsError) (fuel : Nat) (outAt : Nat → SdkOutcome)
    (h : outAt 0 = SdkOutcome.constructionFailure x) :
    Client.mapGetError (SdkOutcome.constructionFailure (Except.ok e)) = e ∧
    Client.mapGetError (SdkOutcome.constructionFailure (Except.error msg)) =
      ImdsError.Unexpected msg ∧
    classifyRetry (SdkOutcome.constructionFailure x) = RetryKind.UnretryableFailure ∧
    retryLoop classifyRetry outAt fuel 0 = (outAt 0, 1) := by
  refine ⟨rfl, rfl, rfl, ?_⟩
  exact retryLoop_stops classifyRetry outAt fuel 0
    (fun k hk => by rw [h] at hk; cases hk)

/-- Claim C10 (witness). -/
theorem C10_construction_failure_witness :
    Client.mapGetError (SdkOutcome.constructionFailure
      (Except.ok (ImdsError.FailedToLoadToken TokenError.Forbidden))) =
      ImdsError.FailedToLoadToken TokenError.Forbidden ∧
    Client.mapGetError (SdkOutcome.constructionFailure (Except.error "io failure")) =
      ImdsError.Unexpected "io failure" ∧
    classifyRetry (SdkOutcome.constructionFailure
      (Except.ok (ImdsError.FailedToLoadToken TokenError.Forbidden))) =
      RetryKind.UnretryableFailure ∧
    retryLoop classifyRetry
      (fun _ => SdkOutcome.constructionFailure
        (Except.ok (ImdsError.FailedToLoadToken TokenError.Forbidden))) 3 0 =
      (SdkOutcome.constructionFailure
        (Except.ok (ImdsError.FailedToLoadToken TokenError.Forbidden)), 1) :=
  C10_construction_failure (ImdsError.FailedToLoadToken TokenError.Forbidden)
    "io failure"
    (Except.ok (ImdsError.FailedToLoadToken TokenError.Forbidden)) 3
    (fun _ => SdkOutcome.constructionFailure
      (Except.ok (ImdsError.FailedToLoadToken TokenError.Forbidden))) rfl

/-- Claim C8: endpoint-mode strings are parsed ASCII-case-insensitively,
accepting exactly `IPv4` and `IPv6` (anything else fails with
`InvalidEndpointMode` carrying the input), and the mode-to-address
mapping is fixed: IPv4 resolves to `http://169.254.169.254` and IPv6 to
`http://[fd00:ec2::254]`. -/
theorem C8_endpoint_mode (s : String) :
    (EndpointMode.fromStr s = Except.ok EndpointMode.IpV4 ↔
      asciiLowercase s = "ipv4") ∧
    (EndpointMode.fromStr s = Except.ok EndpointMode.IpV6 ↔
      asciiLowercase s = "ipv6") ∧
    (asciiLowercase s ≠ "ipv4" → asciiLowercase s ≠ "ipv6" →
      EndpointMode.fromStr s = Except.error ⟨s⟩) ∧
    EndpointMode.IpV4.endpoint = "http://169.254.169.254" ∧
    EndpointMode.IpV6.endpoint = "http://[fd00:ec2::254]" := by
  have h4 : asciiLowercase "ipv4" = "ipv4" := by decide
  have h6 : asciiLowercase "ipv6" = "ipv6" := by decide
  have hne : ("ipv4" : String) ≠ "ipv6" := by decide
  refine ⟨?_, ?_, ?_, rfl, rfl⟩ <;>
    simp only [EndpointMode.fromStr, eqIgnoreAsciiCase, h4, h6, beq_iff_eq]
  · by_cases hc4 : asciiLowercase s = "ipv4" <;> simp [hc4]
    by_cases hc6 : asciiLowercase s = "ipv6" <;> simp [hc4, hc6]
  · by_cases hc4 : asciiLowercase s = "ipv4"
    · rw [hc4]
      simp [hne]
    · by_cases hc6 : asciiLowercase s = "ipv6" <;> simp [hc4, hc6]
  · intro hc4 hc6
    simp [hc4, hc6]

/-- Claim C8 (witness). -/
theorem C8_endpoint_mode_witness :
    (EndpointMode.fromStr "IPv4" = Except.ok EndpointMode.IpV4 ↔
      asciiLowercase "IPv4" = "ipv4") ∧
    (asciiLowercase "bogus" ≠ "ipv4" → asciiLowercase "bogus" ≠ "ipv6" →
      EndpointMode.fromStr "bogus" = Except.error ⟨"bogus"⟩) ∧
    EndpointMode.fromStr "bogus" = Except.error ⟨"bogus"⟩ ∧
    EndpointMode.fromStr "iPv6" = Except.ok EndpointMode.IpV6 :=
  ⟨(C8_endpoint_mode "IPv4").1,
   (C8_endpoint_mode "bogus").2.2.1,
   (C8_endpoint_mode "bogus").2.2.1 (by decide) (by decide),
   ((C8_endpoint_mode "iPv6").2.1).mpr (by decide)⟩

/-- Claim C4: endpoint resolution follows the precedence
explicit builder endpoint > environment endpoint variable > profile
endpoint field > caller mode override > environment mode variable >
profile mode field > default IPv4; an explicit builder endpoint is used
verbatim even when a mode override is also supplied — the override is
ignored and only a non-fatal warning (the `Bool` in the result) is
emitted. The lower-precedence clauses are stated for a successfully
loaded profile, since `EndpointSource::endpoint` consults the profile
for the derived cases. -/
theorem C4_endpoint_precedence (parseUri : String → Option String)
    (env : Env) (profile : Profile) (mo : Option EndpointMode)
    (u s pu ms : String) (m : EndpointMode) (pl : Except Unit Profile)
    (b : Builder) :
    (EndpointSource.endpoint parseUri (EndpointSource.Explicit u) mo =
      Except.ok (u, mo.isSome)) ∧
    (b.endpoint = some (EndpointSource.Explicit u) →
      Builder.buildEndpoint parseUri b env pl =
        Except.ok (u, b.mode_override.isSome)) ∧
    (env.get envKeyEndpoint = some s → parseUri s = some pu →
      EndpointSource.endpoint parseUri (EndpointSource.FromEnv env (Except.ok profile)) mo =
        Except.ok (pu, false)) ∧
    (env.get envKeyEndpoint = none → profile.get profileKeyEndpoint = some s →
      parseUri s = some pu →
      EndpointSource.endpoint parseUri (EndpointSource.FromEnv env (Except.ok profile)) mo =
        Except.ok (pu, false)) ∧
    (env.get envKeyEndpoint = none → profile.get profileKeyEndpoint = none →
      EndpointSource.endpoint parseUri (EndpointSource.FromEnv env (Except.ok profile))
          (some m) =
        Except.ok (m.endpoint, false)) ∧
    (env.get envKeyEndpoint = none → profile.get profileKeyEndpoint = none →
      env.get envKeyEndpointMode = some ms → EndpointMode.fromStr ms = Except.ok m →
      EndpointSource.endpoint parseUri (EndpointSource.FromEnv env (Except.ok profile)) none =
        Except.ok (m.endpoint, false)) ∧
    (env.get envKeyEndpoint = none → profile.get profileKeyEndpoint = none →
      env.get envKeyEndpointMode = none → profile.get profileKeyEndpointMode = some ms →
      EndpointMode.fromStr ms = Except.ok m →
      EndpointSource.endpoint parseUri (EndpointSource.FromEnv env (Except.ok profile)) none =
        Except.ok (m.endpoint, false)) ∧
    (env.get envKeyEndpoint = none → profile.get profileKeyEndpoint = none →
      env.get envKeyEndpointMode = none → profile.get profileKeyEndpointMode = none →
      EndpointSource.endpoint parseUri (EndpointSource.FromEnv env (Except.ok profile)) none =
        Except.ok ("http://169.254.169.254", false)) := by
  refine ⟨rfl, ?_, ?_, ?_, ?_, ?_, ?_, ?_⟩
  · intro hb
    simp [Builder.buildEndpoint, Builder.endpointSource, hb, EndpointSource.endpoint]
  · intro h1 h2
    simp [EndpointSource.endpoint, h1, h2]
  · intro h1 h2 h3
    simp [EndpointSource.endpoint, h1, h2, h3]
  · intro h1 h2
    simp [EndpointSource.endpoint, h1, h2]
  · intro h1 h2 h3 h4
    simp [EndpointSource.endpoint, h1, h2, h3, h4]
  · intro h1 h2 h3 h4 h5
    simp [EndpointSource.endpoint, h1, h2, h3, h4, h5]
  · intro h1 h2 h3 h4
    simp [EndpointSource.endpoint, h1, h2, h3, h4, EndpointMode.endpoint]

/-- Claim C4 (witness): one concrete configuration per precedence level. -/
theorem C4_endpoint_precedence_witness :
    (EndpointSource.endpoint some (EndpointSource.Explicit "http://custom:456/")
        (some EndpointMode.IpV6) =
      Except.ok ("http://custom:456/", true)) ∧
    (Builder.buildEndpoint some
        ⟨none, some (EndpointSource.Explicit "http://custom:456/"),
          some EndpointMode.IpV6, none, none, none⟩ ⟨[]⟩ (Except.ok ⟨[]⟩) =
      Except.ok ("http://custom:456/", true)) ∧
    (EndpointSource.endpoint some
        (EndpointSource.FromEnv ⟨[(envKeyEndpoint, "http://env-ep")]⟩
          (Except.ok ⟨[(profileKeyEndpoint, "http://profile-ep")]⟩))
        (some EndpointMode.IpV6) =
      Except.ok ("http://env-ep", false)) ∧
    (EndpointSource.endpoint some
        (EndpointSource.FromEnv ⟨[]⟩
          (Except.ok ⟨[(profileKeyEndpoint, "http://profile-ep")]⟩))
        (some EndpointMode.IpV6) =
      Except.ok ("http://profile-ep", false)) ∧
    (EndpointSource.endpoint some
        (EndpointSource.FromEnv ⟨[(envKeyEndpointMode, "IPv4")]⟩ (Except.ok ⟨[]⟩))
        (some EndpointMode.IpV6) =
      Except.ok ("http://[fd00:ec2::254]", false)) ∧
    (EndpointSource.endpoint some
        (EndpointSource.FromEnv ⟨[(envKeyEndpointMode, "IPv6")]⟩
          (Except.ok ⟨[(profileKeyEndpointMode, "IPv4")]⟩)) none =
      Except.ok ("http://[fd00:ec2::254]", false)) ∧
    (EndpointSource.endpoint some
        (EndpointSource.FromEnv ⟨[]⟩
          (Except.ok ⟨[(profileKeyEndpointMode, "IPv6")]⟩)) none =
      Except.ok ("http://[fd00:ec2::254]", false)) ∧
    (EndpointSource.endpoint some
        (EndpointSource.FromEnv ⟨[]⟩ (Except.ok ⟨[]⟩)) none =
      Except.ok ("http://169.254.169.254", false)) := by
  refine ⟨?_, ?_, ?_, ?_, ?_, ?_, ?_, ?_⟩
  · exact (C4_endpoint_precedence some ⟨[]⟩ ⟨[]⟩ (some EndpointMode.IpV6)
      "http://custom:456/" "" "" "" EndpointMode.IpV4 (Except.ok ⟨[]⟩)
      ⟨none, none, none, none, none, none⟩).1
  · exact (C4_endpoint_precedence some ⟨[]⟩ ⟨[]⟩ none "http://custom:456/" "" ""
      "" EndpointMode.IpV4 (Except.ok ⟨[]⟩)
      ⟨none, some (EndpointSource.Explicit "http://custom:456/"),
        some EndpointMode.IpV6, none, none, none⟩).2.1 rfl
  · exact (C4_endpoint_precedence some ⟨[(envKeyEndpoint, "http://env-ep")]⟩
      ⟨[(profileKeyEndpoint, "http://profile-ep")]⟩ (some EndpointMode.IpV6)
      "" "http://env-ep" "http://env-ep" "" EndpointMode.IpV4 (Except.ok ⟨[]⟩)
      ⟨none, none, none, none, none, none⟩).2.2.1 rfl rfl
  · exact (C4_endpoint_precedence some ⟨[]⟩
      ⟨[(profileKeyEndpoint, "http://profile-ep")]⟩ (some EndpointMode.IpV6)
      "" "http://profile-ep" "http://profile-ep" "" EndpointMode.IpV4
      (Except.ok ⟨[]⟩) ⟨none, none, none, none, none, none⟩).2.2.2.1 rfl rfl rfl
  · exact (C4_endpoint_precedence some ⟨[(envKeyEndpointMode, "IPv4")]⟩ ⟨[]⟩ none
      "" "" "" "" EndpointMode.IpV6 (Except.ok ⟨[]⟩)
      ⟨none, none, none, none, none, none⟩).2.2.2.2.1 rfl rfl
  · exact (C4_endpoint_precedence some ⟨[(envKeyEndpointMode, "IPv6")]⟩
      ⟨[(profileKeyEndpointMode, "IPv4")]⟩ none "" "" "" "IPv6" EndpointMode.IpV6
      (Except.ok ⟨[]⟩) ⟨none, none, none, none, none, none⟩).2.2.2.2.2.1
      rfl rfl rfl rfl
  · exact (C4_endpoint_precedence some ⟨[]⟩ ⟨[(profileKeyEndpointMode, "IPv6")]⟩
      none "" "" "" "IPv6" EndpointMode.IpV6 (Except.ok ⟨[]⟩)
      ⟨none, none, none, none, none, none⟩).2.2.2.2.2.2.1
      rfl rfl rfl rfl rfl
  · exact (C4_endpoint_precedence some ⟨[]⟩ ⟨[]⟩ none "" "" "" ""
      EndpointMode.IpV4 (Except.ok ⟨[]⟩)
      ⟨none, none, none, none, none, none⟩).2.2.2.2.2.2.2 rfl rfl rfl rfl

theorem parseTokenResponse_ok (ts : String) (ttl : Nat) (body : List Nat)
    (h1 : parseDecimal ts = some ttl) (h2 : isValidHeaderValue body = true) :
    parseTokenResponse ⟨200, some ts, body⟩ = Except.ok (body, ttl) := by
  simp [parseTokenResponse, h1, h2]

theorem fetchToken_fetches (fuel : Nat) (tR : Nat → TokenResponse) (now : Nat)
    (cache : Option CachedToken) : (fetchToken fuel tR now cache).fetches = 1 := by
  unfold fetchToken
  rcases hp : parseTokenResponse ((retryLoop classifyTokenResponse tR fuel 0).1) with e | v <;>
    simp [hp]

theorem fetchToken_ok (fuel now ttl : Nat) (ts : String) (body : List Nat)
    (tR : Nat → TokenResponse) (cache : Option CachedToken)
    (h0 : tR 0 = ⟨200, some ts, body⟩)
    (h1 : parseDecimal ts = some ttl) (h2 : isValidHeaderValue body = true) :
    fetchToken fuel tR now cache =
      ⟨Except.ok ⟨body, now + ttl⟩, some ⟨body, now + ttl⟩, 1, 1⟩ := by
  have hp : parseTokenResponse (tR 0) = Except.ok (body, ttl) := by
    rw [h0]
    exact parseTokenResponse_ok ts ttl body h1 h2
  have hc : classifyTokenResponse (tR 0) = RetryKind.Unnecessary := by
    simp [classifyTokenResponse, hp]
  have hl : retryLoop classifyTokenResponse tR fuel 0 = (tR 0, 1) :=
    retryLoop_stops classifyTokenResponse tR fuel 0
      (fun k hk => by rw [hc] at hk; cases hk)
  simp [fetchToken, hl, hp]

theorem clientGet_tokenFetches (fuel : Nat) (tR : Nat → TokenResponse)
    (mR : Nat → RawResponse) (now : Nat) (cache : Option CachedToken) :
    (clientGet fuel tR mR now cache).tokenFetches =
      (getToken fuel tR now cache).fetches := by
  unfold clientGet
  rcases hr : (getToken fuel tR now cache).result <;> simp [hr]

theorem clientGet_cache (fuel : Nat) (tR : Nat → TokenResponse)
    (mR : Nat → RawResponse) (now : Nat) (cache : Option CachedToken) :
    (clientGet fuel tR mR now cache).cache = (getToken fuel tR now cache).cache := by
  unfold clientGet
  rcases hr : (getToken fuel tR now cache).result <;> simp [hr]

/-- Claim C1: token lifecycle over sequential `get` calls. (a) A `get`
against a populated cache reuses the cached token (performs no token
fetch) iff the current time is strictly before `expires_at` minus the
120-second refresh buffer. (b) Two `get` calls whose second call falls
within TTL minus the buffer of the first fetch perform exactly one token
fetch in total. (c) A `get` made when no more than the 120-second buffer
remains before expiry performs a new token fetch (before its metadata
request, which structurally follows token acquisition). (d) The spec's
scenario: TTL 600, gets at times 0, 400 and 550 perform exactly two
token fetches. -/
theorem C1_token_cache :
    (∀ (fuel now : Nat) (t : CachedToken) (tR : Nat → TokenResponse)
        (mR : Nat → RawResponse),
      ((clientGet fuel tR mR now (some t)).tokenFetches = 0 ↔
        now < t.expires_at - TOKEN_REFRESH_BUFFER)) ∧
    (∀ (fuel t0 t1 ttl : Nat) (ts : String) (body : List Nat)
        (mR : Nat → RawResponse),
      parseDecimal ts = some ttl → isValidHeaderValue body = true →
      t1 + TOKEN_REFRESH_BUFFER < t0 + ttl →
      (runGets fuel (fun _ => ⟨200, some ts, body⟩) mR [t0, t1] none).2 = 1) ∧
    (∀ (fuel now : Nat) (t : CachedToken) (tR : Nat → TokenResponse)
        (mR : Nat → RawResponse),
      t.expires_at ≤ now + TOKEN_REFRESH_BUFFER →
      (clientGet fuel tR mR now (some t)).tokenFetches = 1) ∧
    (runGets 3 (fun _ => ⟨200, some "600", [65]⟩) (fun _ => ⟨200, [66]⟩)
        [0, 400, 550] none).2 = 2 := by
  refine ⟨?_, ?_, ?_, by decide⟩
  · intro fuel now t tR mR
    rw [clientGet_tokenFetches]
    cases h : tokenUsable t now with
    | true =>
      have hlt := h
      simp only [tokenUsable, decide_eq_true_eq] at hlt
      simp [getToken, h, hlt]
    | false =>
      have hge := h
      simp only [tokenUsable, decide_eq_false_iff_not] at hge
      simp [getToken, h, fetchToken_fetches, hge]
  · intro fuel t0 t1 ttl ts body mR h1 h2 h3
    have hg1 : getToken fuel (fun _ => ⟨200, some ts, body⟩) t0 none =
        ⟨Except.ok ⟨body, t0 + ttl⟩, some ⟨body, t0 + ttl⟩, 1, 1⟩ :=
      fetchToken_ok fuel t0 ttl ts body (fun _ => ⟨200, some ts, body⟩) none rfl h1 h2
    have hu : tokenUsable ⟨body, t0 + ttl⟩ t1 = true := by
      simp only [TOKEN_REFRESH_BUFFER] at h3
      simp only [tokenUsable, TOKEN_REFRESH_BUFFER, decide_eq_true_eq]
      omega
    have hg2 : getToken fuel (fun _ => ⟨200, some ts, body⟩) t1
        (some ⟨body, t0 + ttl⟩) =
        ⟨Except.ok ⟨body, t0 + ttl⟩, some ⟨body, t0 + ttl⟩, 0, 0⟩ := by
      simp [getToken, hu]
    simp [runGets, clientGet_tokenFetches, clientGet_cache, hg1, hg2]
  · intro fuel now t tR mR h
    rw [clientGet_tokenFetches]
    have hu : tokenUsable t now = false := by
      simp only [TOKEN_REFRESH_BUFFER] at h
      simp only [tokenUsable, TOKEN_REFRESH_BUFFER, decide_eq_false_iff_not]
      omega
    simp [getToken, hu, fetchToken_fetches]

/-- Claim C1 (witness). -/
theorem C1_token_cache_witness :
    ((clientGet 3 (fun _ => ⟨200, some "600", [65]⟩) (fun _ => ⟨200, [66]⟩) 400
        (some ⟨[65], 600⟩)).tokenFetches = 0 ↔ 400 < 600 - TOKEN_REFRESH_BUFFER) ∧
    (runGets 3 (fun _ => ⟨200, some "600", [65]⟩) (fun _ => ⟨200, [66]⟩)
        [0, 400] none).2 = 1 ∧
    (clientGet 3 (fun _ => ⟨200, some "600", [65]⟩) (fun _ => ⟨200, [66]⟩) 550
        (some ⟨[65], 600⟩)).tokenFetches = 1 :=
  ⟨C1_token_cache.1 3 400 ⟨[65], 600⟩ (fun _ => ⟨200, some "600", [65]⟩)
      (fun _ => ⟨200, [66]⟩),
   C1_token_cache.2.1 3 0 400 600 "600" [65] (fun _ => ⟨200, [66]⟩)
      (by decide) (by decide) (by decide),
   C1_token_cache.2.2.1 3 550 ⟨[65], 600⟩ (fun _ => ⟨200, some "600", [65]⟩)
      (fun _ => ⟨200, [66]⟩) (by decide)⟩

/-- Claim C2: a 403 response to the token fetch is fatal: the retry loop
performs exactly one token attempt (zero further attempts), no metadata
request is issued, and the call fails with the `Forbidden` token error —
even though the same classifier marks 500 and 401 token responses as
retryable server errors. -/
theorem C2_forbidden_fatal (fuel now : Nat) (tR : Nat → TokenResponse)
    (mR : Nat → RawResponse) (h : (tR 0).status = 403) :
    (clientGet fuel tR mR now none).result =
      Except.error (ImdsError.FailedToLoadToken TokenError.Forbidden) ∧
    (clientGet fuel tR mR now none).tokenAttempts = 1 ∧
    (clientGet fuel tR mR now none).metaAttempts = 0 ∧
    ImdsResponseRetryClassifier.classify ⟨(tR 0).status, (tR 0).body⟩ =
      RetryKind.UnretryableFailure ∧
    classifyTokenResponse ⟨500, none, []⟩ = RetryKind.Error ErrorKind.ServerError ∧
    classifyTokenResponse ⟨401, none, []⟩ = RetryKind.Error ErrorKind.ServerError := by
  have hp : parseTokenResponse (tR 0) = Except.error TokenError.Forbidden := by
    simp [parseTokenResponse, h]
  have hcl : classifyTokenResponse (tR 0) = RetryKind.UnretryableFailure := by
    simp [classifyTokenResponse, hp, ImdsResponseRetryClassifier.classify,
      statusIsServerError, h]
  have hloop : retryLoop classifyTokenResponse tR fuel 0 = (tR 0, 1) :=
    retryLoop_stops classifyTokenResponse tR fuel 0
      (fun k hk => by rw [hcl] at hk; cases hk)
  have hg : getToken fuel tR now none =
      ⟨Except.error TokenError.Forbidden, none, 1, 1⟩ := by
    simp [getToken, fetchToken, hloop, hp]
  refine ⟨?_, ?_, ?_, ?_, rfl, rfl⟩
  · simp [clientGet, hg, Client.mapGetError]
  · simp [clientGet, hg]
  · simp [clientGet, hg]
  · simp [ImdsResponseRetryClassifier.classify, statusIsServerError, h]

/-- Claim C2 (witness). -/
theorem C2_forbidden_fatal_witness :
    (clientGet 3 (fun _ => ⟨403, none, []⟩) (fun _ => ⟨200, []⟩) 0 none).result =
      Except.error (ImdsError.FailedToLoadToken TokenError.Forbidden) ∧
    (clientGet 3 (fun _ => ⟨403, none, []⟩) (fun _ => ⟨200, []⟩) 0 none).tokenAttempts = 1 ∧
    (clientGet 3 (fun _ => ⟨403, none, []⟩) (fun _ => ⟨200, []⟩) 0 none).metaAttempts = 0 ∧
    ImdsResponseRetryClassifier.classify ⟨403, []⟩ = RetryKind.UnretryableFailure ∧
    classifyTokenResponse ⟨500, none, []⟩ = RetryKind.Error ErrorKind.ServerError ∧
    classifyTokenResponse ⟨401, none, []⟩ = RetryKind.Error ErrorKind.ServerError :=
  C2_forbidden_fatal 3 0 (fun _ => ⟨403, none, []⟩) (fun _ => ⟨200, []⟩) rfl

/-- Claim C7: the outcome taxonomy of `Client::get`. A path that does
not parse yields `InvalidPath` with no network activity; timeout,
dispatch and response-stream failures yield `IoError`; a non-2xx final
response yields `ErrorResponse` carrying the raw response head; a 2xx
response whose body is not valid UTF-8 yields
`Unexpected("IMDS returned invalid UTF-8")` and classifies as
unretryable; a token failure during request preparation yields
`FailedToLoadToken` and no metadata attempt is made. -/
theorem C7_error_taxonomy (fuel now : Nat) (cache : Option CachedToken)
    (tR : Nat → TokenResponse) (mR : Nat → RawResponse)
    (raw : RawResponse) (e : TokenError) :
    (Client.get false fuel tR mR now cache =
      ⟨Except.error ImdsError.InvalidPath, cache, 0, 0, 0⟩) ∧
    (Client.mapGetError SdkOutcome.timeoutError = ImdsError.IoError ∧
     Client.mapGetError SdkOutcome.dispatchFailure = ImdsError.IoError ∧
     Client.mapGetError (SdkOutcome.responseError raw) = ImdsError.IoError) ∧
    (statusIsSuccess raw.status = false →
      ImdsGetResponseHandler.parse raw = Except.error InnerImdsError.BadStatus ∧
      Client.mapGetError (SdkOutcome.serviceError InnerImdsError.BadStatus raw) =
        ImdsError.ErrorResponse raw.status) ∧
    (statusIsSuccess raw.status = true → validUtf8 raw.body = false →
      ImdsGetResponseHandler.parse raw = Except.error InnerImdsError.InvalidUtf8 ∧
      Client.mapGetError (SdkOutcome.serviceError InnerImdsError.InvalidUtf8 raw) =
        ImdsError.Unexpected "IMDS returned invalid UTF-8" ∧
      classifyRetry (SdkOutcome.serviceError InnerImdsError.InvalidUtf8 raw) =
        RetryKind.UnretryableFailure) ∧
    (parseTokenResponse ((retryLoop classifyTokenResponse tR fuel 0).1) =
        Except.error e →
      (clientGet fuel tR mR now none).result =
        Except.error (ImdsError.FailedToLoadToken e) ∧
      (clientGet fuel tR mR now none).metaAttempts = 0) := by
  refine ⟨rfl, ⟨rfl, rfl, rfl⟩, ?_, ?_, ?_⟩
  · intro h
    constructor
    · simp [ImdsGetResponseHandler.parse, h]
    · rfl
  · intro h1 h2
    refine ⟨by simp [ImdsGetResponseHandler.parse, h1, h2], rfl, ?_⟩
    show ImdsResponseRetryClassifier.classify raw = RetryKind.UnretryableFailure
    rw [classify_eq]
    simp only [statusIsSuccess, Bool.and_eq_true, decide_eq_true_eq] at h1
    split_ifs with hcond
    · omega
    · rfl
  · intro hp
    have hg : getToken fuel tR now none =
        ⟨Except.error e, none, 1, (retryLoop classifyTokenResponse tR fuel 0).2⟩ := by
      simp [getToken, fetchToken, hp]
    constructor
    · simp [clientGet, hg, Client.mapGetError]
    · simp [clientGet, hg]

/-- Claim C7 (witness). -/
theorem C7_error_taxonomy_witness :
    (Client.get false 3 (fun _ => ⟨403, none, []⟩) (fun _ => ⟨200, []⟩) 0 none =
      ⟨Except.error ImdsError.InvalidPath, none, 0, 0, 0⟩) ∧
    (statusIsSuccess (RawResponse.status ⟨404, []⟩) = false →
      ImdsGetResponseHandler.parse ⟨404, []⟩ = Except.error InnerImdsError.BadStatus ∧
      Client.mapGetError (SdkOutcome.serviceError InnerImdsError.BadStatus ⟨404, []⟩) =
        ImdsError.ErrorResponse 404) ∧
    (ImdsGetResponseHandler.parse ⟨200, [160, 161]⟩ =
        Except.error InnerImdsError.InvalidUtf8 ∧
      Client.mapGetError (SdkOutcome.serviceError InnerImdsError.InvalidUtf8 ⟨200, [160, 161]⟩) =
        ImdsError.Unexpected "IMDS returned invalid UTF-8" ∧
      classifyRetry (SdkOutcome.serviceError InnerImdsError.InvalidUtf8 ⟨200, [160, 161]⟩) =
        RetryKind.UnretryableFailure) ∧
    ((clientGet 3 (fun _ => ⟨200, none, []⟩) (fun _ => ⟨200, []⟩) 0 none).result =
      Except.error (ImdsError.FailedToLoadToken TokenError.NoTtl) ∧
     (clientGet 3 (fun _ => ⟨200, none, []⟩) (fun _ => ⟨200, []⟩) 0 none).metaAttempts = 0) :=
  ⟨(C7_error_taxonomy 3 0 none (fun _ => ⟨403, none, []⟩) (fun _ => ⟨200, []⟩)
      ⟨404, []⟩ TokenError.NoTtl).1,
   (C7_error_taxonomy 3 0 none (fun _ => ⟨403, none, []⟩) (fun _ => ⟨200, []⟩)
      ⟨404, []⟩ TokenError.NoTtl).2.2.1,
   (C7_error_taxonomy 3 0 none (fun _ => ⟨403, none, []⟩) (fun _ => ⟨200, []⟩)
      ⟨200, [160, 161]⟩ TokenError.NoTtl).2.2.2.1 rfl (by decide),
   (C7_error_taxonomy 3 0 none (fun _ => ⟨200, none, []⟩) (fun _ => ⟨200, []⟩)
      ⟨404, []⟩ TokenError.NoTtl).2.2.2.2 rfl⟩
